import Mathlib

/-!
# Verification of the markicob core subsystems

Shallow embedding of the three core subsystems of the repository:

* the collision region builder (`MapScene.createCollisionObjects` and
  `MapScene.isPointInPolygon` in `src/game/scenes/MapScene.ts`),
* the actor state machine (`Player` in the unnamed player module),
* the occlusion/depth split rule for the obelisk tower
  (`MapScene.update` in `src/game/scenes/MapScene.ts`).

Numeric values are embedded as rationals (`Rat`); the source runs on
JavaScript numbers, but every algorithm here is pure arithmetic and the
claims under verification are about the algorithms.
-/

set_option maxRecDepth 8000

namespace Markicob

/-! ## Collision region builder (`MapScene.createCollisionObjects`) -/

/-- A 2D point, as used for polygon vertices and collision-cell centers. -/
structure Pt where
  x : Rat
  y : Rat
deriving DecidableEq, Repr

/-- One edge test of `MapScene.isPointInPolygon`: the even-odd crossing
condition `((polygon[i].y > y) !== (polygon[j].y > y)) &&
(x < (polygon[j].x - polygon[i].x) * (y - polygon[i].y) /
(polygon[j].y - polygon[i].y) + polygon[i].x)`. -/
def pipEdgeTest (x y : Rat) (a b : Pt) : Bool :=
  (decide (a.y > y) != decide (b.y > y)) &&
    decide (x < (b.x - a.x) * (y - a.y) / (b.y - a.y) + a.x)

/-- Index of the previous vertex: the loop `for (i = 0, j = n - 1; i < n; j = i++)`
pairs vertex `i` with vertex `j = i - 1` (and `n - 1` for `i = 0`). -/
def prevIdx (n i : Nat) : Nat :=
  if i = 0 then n - 1 else i - 1

/-- Source `MapScene.isPointInPolygon`: even-odd (crossing number) point-in-polygon
test, toggling `inside` once per crossing edge. -/
def isPointInPolygon (x y : Rat) (polygon : List Pt) : Bool :=
  (List.range polygon.length).foldl
    (fun inside i =>
      let a := polygon.getD i ⟨0, 0⟩
      let b := polygon.getD (prevIdx polygon.length i) ⟨0, 0⟩
      if pipEdgeTest x y a b then !inside else inside)
    false

/-- Number of iterations of the loop `for (let v = start; v < stop; v += r)`
under exact arithmetic: the iterates are `start + k * r` for `k <` this count. -/
def loopCount (start stop r : Rat) : Nat :=
  (⌈(stop - start) / r⌉).toNat

/-- The values visited by `for (let v = start; v < stop; v += r)`. -/
def loopVals (start stop r : Rat) : List Rat :=
  (List.range (loopCount start stop r)).map (fun (k : Nat) => start + (k : Rat) * r)

/-- Embedding of `Math.min(...xs)` over a list (the empty case never feeds the cell loops:
the bounding box of an empty list is degenerate and yields no iterations). -/
def listMin : List Rat → Rat
  | [] => 0
  | a :: as => as.foldl min a

/-- Embedding of `Math.max(...xs)` over a list. -/
def listMax : List Rat → Rat
  | [] => 0
  | a :: as => as.foldl max a

/-- The cell size `rectSize = 16` used by `MapScene.createCollisionObjects`. -/
def rectSize : Rat := 16

/-- Core of `MapScene.createCollisionObjects` for one polygon: compute the
bounding box of the vertex list, walk an `r × r` grid over it (x outer loop,
y inner loop), and emit a cell centered at `(x + r/2, y + r/2)` exactly when
that center passes `isPointInPolygon`.  The emitted list records the cell
centers in emission order. -/
def buildCells (points : List Pt) (r : Rat) : List Pt :=
  let minX := listMin (points.map Pt.x)
  let maxX := listMax (points.map Pt.x)
  let minY := listMin (points.map Pt.y)
  let maxY := listMax (points.map Pt.y)
  (loopVals minX maxX r).flatMap (fun gx =>
    (loopVals minY maxY r).filterMap (fun gy =>
      let cx := gx + r / 2
      let cy := gy + r / 2
      if isPointInPolygon cx cy points then some ⟨cx, cy⟩ else none))

/-- A Tiled object as consumed by `MapScene.createCollisionObjects`: an
anchor position and an optional polygon point list (points relative to the
anchor).  `x`/`y` are `Option` to model possibly-absent JSON fields. -/
structure TiledObj where
  x : Option Rat
  y : Option Rat
  polygon : Option (List Pt)

/-- JavaScript falsiness of an optional numeric field: `!obj.x` is true when
the field is absent or equal to `0`. -/
def falsyCoord : Option Rat → Bool
  | none => true
  | some v => decide (v = 0)

/-- The per-object body of `MapScene.createCollisionObjects`: the guard
`if (!obj.x || !obj.y || !obj.polygon) return;` skips the object, otherwise
the polygon points are translated by the anchor and the cell grid is built. -/
def createCellsForObject (obj : TiledObj) (r : Rat) : List Pt :=
  if falsyCoord obj.x || falsyCoord obj.y || obj.polygon.isNone then []
  else
    buildCells
      ((obj.polygon.getD []).map (fun p => ⟨obj.x.getD 0 + p.x, obj.y.getD 0 + p.y⟩))
      r

/-- The square test polygon `[(0,0),(32,0),(32,32),(0,32)]`. -/
def squarePoly : List Pt := [⟨0, 0⟩, ⟨32, 0⟩, ⟨32, 32⟩, ⟨0, 32⟩]

/-! ## Actor state machine (`Player` in the unnamed player module)

The `Player` class keeps its state in the boolean flags `isMoving`,
`isAttacking`, `isHurt`, `isDead`, the integer `attackCooldown`, the physics
velocity, the sprite flip, the physics-body enable flag, and the currently
playing animation key.  The position is moved only by the external physics
collaborator and is not modelled.  Animations `jiwatron-idle` and
`jiwatron-walk` loop (`repeat: -1` in the preloader) and the attack, hurt and
death animations complete once (`repeat: 0`); a completion event always
carries the key of the animation that was playing. -/

/-- The mutable fields of the `Player` sprite. -/
structure PlayerState where
  isMoving : Bool
  isAttacking : Bool
  isHurt : Bool
  isDead : Bool
  attackCooldown : Int
  velX : Rat
  velY : Rat
  flipX : Bool
  anim : String
  bodyEnable : Bool
deriving DecidableEq, Repr

/-- Source field `private speed: number = 150`. -/
def speed : Rat := 150

/-- Source `Player.moveLeft`. -/
def moveLeft (s : PlayerState) : PlayerState :=
  { s with velX := -speed, flipX := true, isMoving := true }

/-- Source `Player.moveRight`. -/
def moveRight (s : PlayerState) : PlayerState :=
  { s with velX := speed, flipX := false, isMoving := true }

/-- Source `Player.moveUp`. -/
def moveUp (s : PlayerState) : PlayerState :=
  { s with velY := -speed, isMoving := true }

/-- Source `Player.moveDown`. -/
def moveDown (s : PlayerState) : PlayerState :=
  { s with velY := speed, isMoving := true }

/-- Source `Player.stopHorizontal`. -/
def stopHorizontal (s : PlayerState) : PlayerState :=
  { s with velX := 0 }

/-- Source `Player.stopVertical`. -/
def stopVertical (s : PlayerState) : PlayerState :=
  { s with velY := 0 }

/-- Source `Player.playIdle`: refuses while attacking, hurt or dead, and plays the
idle animation only when the velocity is zero. -/
def playIdle (s : PlayerState) : PlayerState :=
  if s.isAttacking ∨ s.isHurt ∨ s.isDead then s
  else if s.velX = 0 ∧ s.velY = 0 then { s with anim := "jiwatron-idle" } else s

/-- Source `Player.playWalk`: refuses while attacking, hurt or dead, and plays the
walk animation only when some velocity component is nonzero. -/
def playWalk (s : PlayerState) : PlayerState :=
  if s.isAttacking ∨ s.isHurt ∨ s.isDead then s
  else if s.velX ≠ 0 ∨ s.velY ≠ 0 then { s with anim := "jiwatron-walk" } else s

/-- Source `Player.attack(animationKey)`: rejected while attacking, hurt, dead, or
while `attackCooldown > 0`; otherwise sets `isAttacking`, zeroes the velocity
and plays the requested attack animation. -/
def attack (animationKey : String) (s : PlayerState) : PlayerState :=
  if s.isAttacking ∨ s.isHurt ∨ s.isDead ∨ s.attackCooldown > 0 then s
  else { s with isAttacking := true, velX := 0, velY := 0, anim := animationKey }

/-- Source `Player.playHurt`: rejected while hurt or dead; otherwise sets `isHurt`,
zeroes the velocity and plays the hurt animation.  Note that `isAttacking`
is neither checked nor cleared. -/
def playHurt (s : PlayerState) : PlayerState :=
  if s.isHurt ∨ s.isDead then s
  else { s with isHurt := true, velX := 0, velY := 0, anim := "jiwatron-hurt" }

/-- Source `Player.playDeath`: rejected while already dead; otherwise sets `isDead`,
zeroes the velocity and plays the death animation.  The physics body is not
disabled here. -/
def playDeath (s : PlayerState) : PlayerState :=
  if s.isDead then s
  else { s with isDead := true, velX := 0, velY := 0, anim := "jiwatron-death" }

/-- Source `Player.resetCharacter`: clears the three state flags, resets the
cooldown, re-enables the body, repositions the sprite (not modelled) and
calls `playIdle`. -/
def resetCharacter (s : PlayerState) : PlayerState :=
  playIdle { s with isDead := false, isHurt := false, isAttacking := false,
                    attackCooldown := 0, bodyEnable := true }

/-- Source `Player.handleAnimationComplete`: dispatches on the key of the completed
animation.  Attack completion clears `isAttacking` and returns to idle only
when `isMoving` is false; hurt completion clears `isHurt` and calls
`playIdle`; death completion sets `isDead`, zeroes velocity and disables the
physics body. -/
def handleAnimationComplete (animKey : String) (s : PlayerState) : PlayerState :=
  if animKey.startsWith "jiwatron-attack" then
    let s1 := { s with isAttacking := false }
    if !s1.isMoving then playIdle s1 else s1
  else if animKey = "jiwatron-hurt" then
    playIdle { s with isHurt := false }
  else if animKey = "jiwatron-death" then
    { s with isDead := true, velX := 0, velY := 0, bodyEnable := false }
  else s

/-- The keyboard sample consumed by one `Player.update` call.  `A`, `D`, `W`,
`S` are `isDown` (held) flags; `J`, `K`, `L`, `H`, `P`, `R` are
`JustDown` (edge) flags. -/
structure Keys where
  A : Bool
  D : Bool
  W : Bool
  S : Bool
  J : Bool
  K : Bool
  L : Bool
  H : Bool
  P : Bool
  R : Bool
deriving DecidableEq, Repr

/-- The movement block at the end of `Player.update`: horizontal axis (A/D,
else stop), vertical axis (W/S, else stop), with a local `isMoving` flag
that is true exactly when one of the four keys is held, then `playWalk` or
`playIdle`. -/
def handleMovement (k : Keys) (s : PlayerState) : PlayerState :=
  let s1 := if k.A then moveLeft s else if k.D then moveRight s else stopHorizontal s
  let s2 := if k.W then moveUp s1 else if k.S then moveDown s1 else stopVertical s1
  if (k.A || k.D) || (k.W || k.S) then playWalk s2 else playIdle s2

/-- Source `Player.update`: decrement a positive cooldown; while dead, react only to
`R` (reset); otherwise `H` (hurt) and `P` (death) return early; then the
attack keys and the movement block run, each guarded by
`!isAttacking && !isHurt`. -/
def update (k : Keys) (s : PlayerState) : PlayerState :=
  let s0 := if s.attackCooldown > 0 then { s with attackCooldown := s.attackCooldown - 1 } else s
  if s0.isDead then
    if k.R then resetCharacter s0 else s0
  else if k.H then playHurt s0
  else if k.P then playDeath s0
  else
    let s1 :=
      if !s0.isAttacking && !s0.isHurt then
        if k.J then attack "jiwatron-attack1" s0
        else if k.K then attack "jiwatron-attack2" s0
        else if k.L then attack "jiwatron-attack3" s0
        else s0
      else s0
    if !s1.isAttacking && !s1.isHurt then handleMovement k s1 else s1

/-- The actor state right after construction: flags clear, cooldown `0`,
velocity zero, idle animation, physics body enabled. -/
def spawn : PlayerState :=
  { isMoving := false, isAttacking := false, isHurt := false, isDead := false,
    attackCooldown := 0, velX := 0, velY := 0, flipX := false,
    anim := "jiwatron-idle", bodyEnable := true }

/-- One externally visible event: an `update` tick with a keyboard sample, or
the completion of the currently playing animation. -/
inductive PEvent where
  | tick (k : Keys)
  | animComplete

/-- Process one event. -/
def step (s : PlayerState) (e : PEvent) : PlayerState :=
  match e with
  | .tick k => update k s
  | .animComplete => handleAnimationComplete s.anim s

/-- Process a list of events in order. -/
def run (s : PlayerState) (es : List PEvent) : PlayerState :=
  es.foldl step s

/-- The states reachable from `spawn` by any sequence of ticks and
animation-completion events. -/
inductive Reachable : PlayerState → Prop where
  | init : Reachable spawn
  | next : ∀ {s : PlayerState} (e : PEvent), Reachable s → Reachable (step s e)

/-- A keyboard sample with no input at all. -/
def kNone : Keys :=
  { A := false, D := false, W := false, S := false, J := false, K := false,
    L := false, H := false, P := false, R := false }

/-- Only the attack-1 key `J` just pressed. -/
def kJ : Keys := { kNone with J := true }

/-- Only the hurt-debug key `H` just pressed. -/
def kH : Keys := { kNone with H := true }

/-- Only the death-debug key `P` just pressed. -/
def kP : Keys := { kNone with P := true }

/-- Only the left-movement key `A` held. -/
def kA : Keys := { kNone with A := true }

/-! ## Occlusion split rule for the obelisk tower (`MapScene.update`) -/

/-- Source constant `obeliskPhysicsY = 500`. -/
def obeliskPhysicsY : Rat := 500

/-- Source constant `obeliskHeight = 256`. -/
def obeliskHeight : Rat := 256

/-- The tuned split fraction `0.65`. -/
def obeliskSplitFraction : Rat := 65 / 100

/-- Source expression `splitPoint = obeliskPhysicsY + obeliskHeight * 0.65`. -/
def obeliskSplitPoint : Rat := obeliskPhysicsY + obeliskHeight * obeliskSplitFraction

/-- The obelisk branch of `MapScene.update`: for a given actor `y`, the
`(depth, alpha)` assigned to the obelisk sprite this tick. -/
def obeliskDepthAlpha (playerY : Rat) : Rat × Rat :=
  if playerY < obeliskSplitPoint then (1000, 6/10) else (50, 1)

/-! ## Concrete states used by the claims -/

/-- The state after a single attack-1 tick from spawn. -/
def attackFromSpawn : PlayerState := step spawn (.tick kJ)

/-- The state after an attack-1 tick and then a hurt tick from spawn. -/
def hurtWhileAttacking : PlayerState := step attackFromSpawn (.tick kH)

/-- The state after a single hurt tick from spawn. -/
def hurtFromSpawn : PlayerState := step spawn (.tick kH)

/-- The state after a single death tick from spawn. -/
def deadFromSpawn : PlayerState := step spawn (.tick kP)

/-- Walk left for a tick, release all keys for a tick, attack, and let the
attack animation complete with no key held. -/
def movedThenAttackCompleted : PlayerState :=
  step (step (step (step spawn (.tick kA)) (.tick kNone)) (.tick kJ)) .animComplete

/-- A collidable Tiled object whose anchor x coordinate is `0` but whose
polygon is a valid simple polygon with four points. -/
def zeroAnchorObj : TiledObj := { x := some 0, y := some 5, polygon := some squarePoly }

/-- Intermediate state of the moved-then-attacked trace: walking left. -/
def sWalking : PlayerState :=
  { isMoving := true, isAttacking := false, isHurt := false, isDead := false,
    attackCooldown := 0, velX := -150, velY := 0, flipX := true,
    anim := "jiwatron-walk", bodyEnable := true }

/-- Intermediate state: stopped after walking; note `isMoving` is still true. -/
def sStopped : PlayerState :=
  { isMoving := true, isAttacking := false, isHurt := false, isDead := false,
    attackCooldown := 0, velX := 0, velY := 0, flipX := true,
    anim := "jiwatron-idle", bodyEnable := true }

/-- Intermediate state: attacking after having moved earlier. -/
def sAttackingStale : PlayerState :=
  { isMoving := true, isAttacking := true, isHurt := false, isDead := false,
    attackCooldown := 0, velX := 0, velY := 0, flipX := true,
    anim := "jiwatron-attack1", bodyEnable := true }

/-- Final state of the moved-then-attacked trace: the attack flag is cleared
but the animation is left on the finished attack, although no movement key is
held. -/
def sStaleAfterComplete : PlayerState :=
  { isMoving := true, isAttacking := false, isHurt := false, isDead := false,
    attackCooldown := 0, velX := 0, velY := 0, flipX := true,
    anim := "jiwatron-attack1", bodyEnable := true }

/-! ## Helper lemmas -/

theorem step_spawn_kA : step spawn (.tick kA) = sWalking := by
  with_unfolding_all decide

theorem step_sWalking_kNone : step sWalking (.tick kNone) = sStopped := by
  with_unfolding_all decide

theorem step_sStopped_kJ : step sStopped (.tick kJ) = sAttackingStale := by
  with_unfolding_all decide

theorem step_sAttackingStale_complete : step sAttackingStale .animComplete = sStaleAfterComplete := by
  with_unfolding_all decide

theorem movedThenAttackCompleted_eval : movedThenAttackCompleted = sStaleAfterComplete := by
  unfold movedThenAttackCompleted
  rw [step_spawn_kA, step_sWalking_kNone, step_sStopped_kJ, step_sAttackingStale_complete]

theorem playIdle_cooldown (s : PlayerState) :
    (playIdle s).attackCooldown = s.attackCooldown := by
  unfold playIdle
  split
  · rfl
  · split <;> rfl

theorem playWalk_cooldown (s : PlayerState) :
    (playWalk s).attackCooldown = s.attackCooldown := by
  unfold playWalk
  split
  · rfl
  · split <;> rfl

theorem attack_cooldown (key : String) (s : PlayerState) :
    (attack key s).attackCooldown = s.attackCooldown := by
  unfold attack
  split <;> rfl

theorem playHurt_cooldown (s : PlayerState) :
    (playHurt s).attackCooldown = s.attackCooldown := by
  unfold playHurt
  split <;> rfl

theorem playDeath_cooldown (s : PlayerState) :
    (playDeath s).attackCooldown = s.attackCooldown := by
  unfold playDeath
  split <;> rfl

theorem resetCharacter_cooldown (s : PlayerState) :
    (resetCharacter s).attackCooldown = 0 := by
  unfold resetCharacter
  rw [playIdle_cooldown]

theorem handleMovement_cooldown (k : Keys) (s : PlayerState) :
    (handleMovement k s).attackCooldown = s.attackCooldown := by
  unfold handleMovement
  cases hA : k.A <;> cases hD : k.D <;> cases hW : k.W <;> cases hS : k.S <;>
    simp [hA, hD, hW, hS, playWalk_cooldown, playIdle_cooldown,
      moveLeft, moveRight, moveUp, moveDown, stopHorizontal, stopVertical]

theorem handleAnimationComplete_cooldown (a : String) (s : PlayerState) :
    (handleAnimationComplete a s).attackCooldown = s.attackCooldown := by
  unfold handleAnimationComplete
  dsimp only
  split_ifs <;> simp [playIdle_cooldown]

theorem update_cooldown_zero (k : Keys) (s : PlayerState) (h : s.attackCooldown = 0) :
    (update k s).attackCooldown = 0 := by
  unfold update
  rw [h]
  dsimp only
  simp only [gt_iff_lt, lt_self_iff_false, if_false]
  split_ifs <;>
    simp [resetCharacter_cooldown, playHurt_cooldown, playDeath_cooldown,
      handleMovement_cooldown, attack_cooldown, h]

/-! ## Claim theorems -/

/-- C9: in every actor state reachable from spawn, `attackCooldown` equals
`0`.  No operation of the `Player` class ever sets it to a positive value —
`update` only decrements it when positive and `resetCharacter` resets it to
`0` — so the `attackCooldown > 0` condition never rejects an attack trigger
and the rate limit never engages. -/
theorem c9_cooldown_always_zero (s : PlayerState) (h : Reachable s) :
    s.attackCooldown = 0 := by
  induction h with
  | init => rfl
  | next e hr ih =>
    cases e with
    | tick k => exact update_cooldown_zero k _ ih
    | animComplete =>
      show (handleAnimationComplete _ _).attackCooldown = 0
      rw [handleAnimationComplete_cooldown]
      exact ih

/-- Witness for C9: `spawn` itself is reachable and the theorem applies to
it. -/
theorem c9_cooldown_always_zero_witness : spawn.attackCooldown = 0 :=
  c9_cooldown_always_zero spawn Reachable.init

/-- C1: the claimed invariant — exactly one of Idle, Walking, Attacking,
Hurt, Dead, and in particular never two of `isAttacking`, `isHurt`, `isDead`
at once — fails on the code: after an accepted attack trigger, a hurt
trigger is also accepted (`playHurt` checks only `isHurt`/`isDead`) and does
not clear `isAttacking`, so the reachable state below has both
`isAttacking` and `isHurt` set. -/
theorem c1_combined_flags_reachable :
    Reachable hurtWhileAttacking ∧
    hurtWhileAttacking.isAttacking = true ∧ hurtWhileAttacking.isHurt = true :=
  ⟨Reachable.next (.tick kH) (Reachable.next (.tick kJ) Reachable.init),
   by with_unfolding_all decide, by with_unfolding_all decide⟩

/-- C3: a hurt trigger during an attack does set `isHurt`, zero the velocity
and start the hurt animation, but — contrary to the claim — it does not
clear `isAttacking`, which remains `true` after the trigger is processed. -/
theorem c3_hurt_leaves_attacking_set :
    hurtWhileAttacking.isHurt = true ∧
    hurtWhileAttacking.velX = 0 ∧ hurtWhileAttacking.velY = 0 ∧
    hurtWhileAttacking.anim = "jiwatron-hurt" ∧
    hurtWhileAttacking.isAttacking = true := by
  with_unfolding_all decide

/-- C5 counterexample: immediately after a death trigger from spawn the
actor is dead but its physics body is still enabled — the claim that the
trigger itself disables collision response is false at this input. -/
theorem c5_counterexample_body_still_enabled :
    deadFromSpawn.isDead = true ∧ deadFromSpawn.bodyEnable = true := by
  with_unfolding_all decide

/-- C5 (amended): a death trigger in a non-Dead state sets `isDead`, zeroes
the velocity and starts the death animation, leaving the physics body
untouched; collision response is disabled only when the death animation
completes; and while dead, any tick without the reset key leaves the state
completely unchanged. -/
theorem c5_death_behaviour (s t : PlayerState) (k : Keys)
    (hs : s.isDead = false) (ht : t.isDead = true) (hta : t.anim = "jiwatron-death")
    (htc : t.attackCooldown = 0) (hk : k.R = false) :
    (playDeath s).isDead = true ∧
    (playDeath s).velX = 0 ∧ (playDeath s).velY = 0 ∧
    (playDeath s).anim = "jiwatron-death" ∧
    (playDeath s).bodyEnable = s.bodyEnable ∧
    (step t .animComplete).bodyEnable = false ∧
    step t (.tick k) = t := by
  have hpd : playDeath s =
      { s with isDead := true, velX := 0, velY := 0, anim := "jiwatron-death" } := by
    unfold playDeath
    rw [if_neg]
    simp [hs]
  refine ⟨by rw [hpd], by rw [hpd], by rw [hpd], by rw [hpd], by rw [hpd], ?_, ?_⟩
  · show (handleAnimationComplete t.anim t).bodyEnable = false
    rw [hta]
    unfold handleAnimationComplete
    rw [if_neg (by with_unfolding_all decide), if_neg (by with_unfolding_all decide),
      if_pos rfl]
  · show update k t = t
    unfold update
    rw [htc]
    dsimp only
    simp only [gt_iff_lt, lt_self_iff_false, if_false]
    rw [if_pos ht, if_neg]
    simp [hk]

/-- Witness for C5 (amended), at `spawn` and the concrete post-death-trigger
state `deadFromSpawn`, with an attack tick while dead. -/
theorem c5_death_behaviour_witness :
    (playDeath spawn).isDead = true ∧
    (playDeath spawn).velX = 0 ∧ (playDeath spawn).velY = 0 ∧
    (playDeath spawn).anim = "jiwatron-death" ∧
    (playDeath spawn).bodyEnable = spawn.bodyEnable ∧
    (step deadFromSpawn .animComplete).bodyEnable = false ∧
    step deadFromSpawn (.tick kJ) = deadFromSpawn :=
  c5_death_behaviour spawn deadFromSpawn kJ rfl
    (by with_unfolding_all decide) (by with_unfolding_all decide)
    (by with_unfolding_all decide) rfl

/-- C6: an attack trigger is accepted exactly when the actor is neither
attacking nor hurt nor dead and `attackCooldown ≤ 0`; acceptance sets
`isAttacking`, zeroes the velocity and plays the requested attack animation;
in every other case the trigger leaves the whole state unchanged (in
particular, an attack while already attacking does not restart the attack). -/
theorem c6_attack_gating (s : PlayerState) (key : String) :
    (s.isAttacking = false → s.isHurt = false → s.isDead = false →
      s.attackCooldown ≤ 0 →
      attack key s = { s with isAttacking := true, velX := 0, velY := 0, anim := key }) ∧
    ((s.isAttacking = true ∨ s.isHurt = true ∨ s.isDead = true ∨ 0 < s.attackCooldown) →
      attack key s = s) := by
  constructor
  · intro h1 h2 h3 h4
    unfold attack
    rw [if_neg]
    simp only [h1, h2, h3, gt_iff_lt]
    push_neg
    refine ⟨by simp, by simp, by simp, h4⟩
  · intro h
    unfold attack
    rw [if_pos]
    rcases h with h | h | h | h
    · exact Or.inl h
    · exact Or.inr (Or.inl h)
    · exact Or.inr (Or.inr (Or.inl h))
    · exact Or.inr (Or.inr (Or.inr h))

/-- Witness for C6: acceptance from spawn, rejection while hurt and while
already attacking. -/
theorem c6_attack_gating_witness :
    attack "jiwatron-attack1" spawn =
      { spawn with isAttacking := true, velX := 0, velY := 0, anim := "jiwatron-attack1" } ∧
    attack "jiwatron-attack2" hurtFromSpawn = hurtFromSpawn ∧
    attack "jiwatron-attack2" attackFromSpawn = attackFromSpawn :=
  ⟨(c6_attack_gating spawn "jiwatron-attack1").1 rfl rfl rfl (by decide),
   (c6_attack_gating hurtFromSpawn "jiwatron-attack2").2
     (Or.inr (Or.inl (by with_unfolding_all decide))),
   (c6_attack_gating attackFromSpawn "jiwatron-attack2").2
     (Or.inl (by with_unfolding_all decide))⟩

/-- Faithfulness of `loopVals` to the source loop: for a positive step, the
visited values are exactly the `start + k * r` that are below `stop`. -/
theorem mem_loopVals_iff (start stop r v : Rat) (hr : 0 < r) :
    v ∈ loopVals start stop r ↔
      ∃ k : Nat, v = start + (k : Rat) * r ∧ start + (k : Rat) * r < stop := by
  unfold loopVals loopCount
  constructor
  · intro hv
    obtain ⟨k, hk, hkv⟩ := List.mem_map.mp hv
    have hk2 : k < (⌈(stop - start) / r⌉).toNat := List.mem_range.mp hk
    refine ⟨k, hkv.symm, ?_⟩
    have h1 : (k : Int) < ⌈(stop - start) / r⌉ := Int.lt_toNat.mp hk2
    have h2 : (k : Rat) < (stop - start) / r := by exact_mod_cast Int.lt_ceil.mp h1
    have h3 : (k : Rat) * r < stop - start := (lt_div_iff₀ hr).mp h2
    linarith
  · rintro ⟨k, rfl, hlt⟩
    refine List.mem_map.mpr ⟨k, List.mem_range.mpr ?_, rfl⟩
    have h3 : (k : Rat) * r < stop - start := by linarith
    have h2 : (k : Rat) < (stop - start) / r := (lt_div_iff₀ hr).mpr h3
    have h1 : (k : Int) < ⌈(stop - start) / r⌉ := Int.lt_ceil.mpr (by exact_mod_cast h2)
    exact Int.lt_toNat.mpr h1

/-- C2: every cell emitted by the collision region builder for a polygon
with at least three points has its center classified as inside the polygon
by the even-odd crossing-number test (`isPointInPolygon`); the builder emits
a cell only after that test succeeds on the center of the cell. -/
theorem c2_emitted_center_inside (points : List Pt) (r : Rat) (c : Pt)
    (_hlen : 3 ≤ points.length) (hc : c ∈ buildCells points r) :
    isPointInPolygon c.x c.y points = true := by
  simp only [buildCells, List.mem_flatMap, List.mem_filterMap] at hc
  obtain ⟨gx, _, gy, _, hsome⟩ := hc
  by_cases hpip : isPointInPolygon (gx + r / 2) (gy + r / 2) points = true
  · rw [if_pos hpip] at hsome
    obtain rfl : (⟨gx + r / 2, gy + r / 2⟩ : Pt) = c := Option.some.inj hsome
    exact hpip
  · rw [if_neg hpip] at hsome
    exact absurd hsome (Option.some_ne_none _).symm

/-- Witness for C2: the square polygon at resolution 16 with the emitted
cell centered at `(8, 8)`. -/
theorem c2_emitted_center_inside_witness :
    3 ≤ squarePoly.length ∧ isPointInPolygon 8 8 squarePoly = true :=
  ⟨by decide,
   c2_emitted_center_inside squarePoly 16 ⟨8, 8⟩ (by decide)
     (by with_unfolding_all decide)⟩

/-- C8: building collision cells for the square polygon
`[(0,0),(32,0),(32,32),(0,32)]` at resolution 16 yields exactly 4 cells, and
their centers are `(8,8)`, `(24,8)`, `(8,24)` and `(24,24)` (emitted with x
as the outer loop, so in the order `(8,8),(8,24),(24,8),(24,24)`). -/
theorem c8_square_four_cells :
    buildCells squarePoly 16 = [⟨8, 8⟩, ⟨8, 24⟩, ⟨24, 8⟩, ⟨24, 24⟩] ∧
    (buildCells squarePoly 16).length = 4 ∧
    (⟨8, 8⟩ : Pt) ∈ buildCells squarePoly 16 ∧
    (⟨24, 8⟩ : Pt) ∈ buildCells squarePoly 16 ∧
    (⟨8, 24⟩ : Pt) ∈ buildCells squarePoly 16 ∧
    (⟨24, 24⟩ : Pt) ∈ buildCells squarePoly 16 := by
  with_unfolding_all decide

/-- C10: a collidable polygon object whose anchor `x` or `y` is `0` or
missing is skipped entirely by the collision builder — the JavaScript
falsiness check `!obj.x || !obj.y` treats the coordinate `0` like an absent
coordinate — even when the polygon itself is valid. -/
theorem c10_zero_anchor_skipped (obj : TiledObj) (r : Rat)
    (h : obj.x = some 0 ∨ obj.y = some 0 ∨ obj.x = none ∨ obj.y = none) :
    createCellsForObject obj r = [] := by
  unfold createCellsForObject
  rcases h with h | h | h | h <;> rw [h] <;> simp [falsyCoord]

/-- Witness for C10: the object anchored at x = 0 with a valid four-point
polygon produces no cells. -/
theorem c10_zero_anchor_skipped_witness :
    3 ≤ squarePoly.length ∧ createCellsForObject zeroAnchorObj 16 = [] :=
  ⟨by decide, c10_zero_anchor_skipped zeroAnchorObj 16 (Or.inl rfl)⟩

/-- C7: the obelisk split rule uses `splitY = 500 + 256 * 0.65 = 666.4`;
an actor y strictly below it gets the high depth 1000 and reduced alpha 0.6,
and any other y — including y exactly equal to `splitY` — gets the low
depth 50 and full alpha 1. -/
theorem c7_obelisk_split_rule (y : Rat) :
    obeliskSplitPoint = 3332 / 5 ∧
    (y < obeliskSplitPoint → obeliskDepthAlpha y = (1000, 6 / 10)) ∧
    (obeliskSplitPoint ≤ y → obeliskDepthAlpha y = (50, 1)) ∧
    obeliskDepthAlpha obeliskSplitPoint = (50, 1) := by
  refine ⟨?_, ?_, ?_, ?_⟩
  · norm_num [obeliskSplitPoint, obeliskPhysicsY, obeliskHeight, obeliskSplitFraction]
  · intro h
    unfold obeliskDepthAlpha
    rw [if_pos h]
  · intro h
    unfold obeliskDepthAlpha
    rw [if_neg (not_lt.mpr h)]
  · unfold obeliskDepthAlpha
    rw [if_neg (lt_irrefl _)]

/-- Witness for C7: both sides of the boundary and the boundary itself. -/
theorem c7_obelisk_split_rule_witness :
    obeliskDepthAlpha 0 = (1000, 6 / 10) ∧
    obeliskDepthAlpha 700 = (50, 1) ∧
    obeliskDepthAlpha obeliskSplitPoint = (50, 1) :=
  ⟨(c7_obelisk_split_rule 0).2.1
     (by norm_num [obeliskSplitPoint, obeliskPhysicsY, obeliskHeight, obeliskSplitFraction]),
   (c7_obelisk_split_rule 700).2.2.1
     (by norm_num [obeliskSplitPoint, obeliskPhysicsY, obeliskHeight, obeliskSplitFraction]),
   (c7_obelisk_split_rule 0).2.2.2⟩

/-- After an attack-completion event, an all-keys-released tick returns the
actor to the idle animation. -/
theorem tick_none_anim (s : PlayerState) (hA : s.isAttacking = false)
    (hh : s.isHurt = false) (hd : s.isDead = false) (hc : s.attackCooldown = 0) :
    (step s (.tick kNone)).anim = "jiwatron-idle" := by
  show (update kNone s).anim = _
  simp [update, kNone, handleMovement, stopHorizontal, stopVertical, playIdle,
    playWalk, attack, hA, hh, hd, hc]

/-- After an attack-completion event, a tick with the left key held plays
the walk animation. -/
theorem tick_left_anim (s : PlayerState) (hA : s.isAttacking = false)
    (hh : s.isHurt = false) (hd : s.isDead = false) (hc : s.attackCooldown = 0) :
    (step s (.tick kA)).anim = "jiwatron-walk" := by
  show (update kA s).anim = _
  simp [update, kA, kNone, handleMovement, moveLeft, stopVertical, playIdle,
    playWalk, attack, speed, hA, hh, hd, hc]

/-- C4 counterexample: after moving, releasing all keys, attacking, and
letting the attack animation complete with no movement input held, the
actor is neither in the idle nor in the walk animation — the completion
handler consulted the stale latched `isMoving` flag and left the finished
attack animation in place, contradicting the claim that the actor
transitions to Idle at that moment. -/
theorem c4_counterexample_stale_isMoving :
    movedThenAttackCompleted.isAttacking = false ∧
    movedThenAttackCompleted.isHurt = false ∧
    movedThenAttackCompleted.isDead = false ∧
    movedThenAttackCompleted.velX = 0 ∧ movedThenAttackCompleted.velY = 0 ∧
    movedThenAttackCompleted.isMoving = true ∧
    movedThenAttackCompleted.anim = "jiwatron-attack1" ∧
    movedThenAttackCompleted.anim ≠ "jiwatron-idle" ∧
    movedThenAttackCompleted.anim ≠ "jiwatron-walk" := by
  rw [movedThenAttackCompleted_eval]
  with_unfolding_all decide

/-- C4 (amended): when the attack animation completes, `isAttacking` is
cleared; the actor switches to the idle animation only if the latched
`isMoving` flag — set by any past movement and never cleared — is false,
and otherwise the animation is left unchanged; the idle or walk animation
then resumes on the next update tick from the actually held input. -/
theorem c4_attack_completion (s : PlayerState)
    (ha : s.anim = "jiwatron-attack1" ∨ s.anim = "jiwatron-attack2" ∨
      s.anim = "jiwatron-attack3")
    (hvx : s.velX = 0) (hvy : s.velY = 0) (hh : s.isHurt = false)
    (hd : s.isDead = false) (hc : s.attackCooldown = 0) :
    (step s .animComplete).isAttacking = false ∧
    (step s .animComplete).anim = (if s.isMoving then s.anim else "jiwatron-idle") ∧
    (step (step s .animComplete) (.tick kNone)).anim = "jiwatron-idle" ∧
    (step (step s .animComplete) (.tick kA)).anim = "jiwatron-walk" := by
  have hsw : s.anim.startsWith "jiwatron-attack" = true := by
    rcases ha with h | h | h <;> rw [h] <;> with_unfolding_all decide
  cases hm : s.isMoving with
  | true =>
    have hstep : step s .animComplete = { s with isAttacking := false } := by
      show handleAnimationComplete s.anim s = _
      unfold handleAnimationComplete
      rw [if_pos hsw]
      dsimp only
      rw [if_neg (show ¬((!s.isMoving) = true) by rw [hm]; decide)]
    refine ⟨by rw [hstep], by rw [hstep]; simp [hm], ?_, ?_⟩
    · exact tick_none_anim _ (by rw [hstep]) (by rw [hstep]; exact hh)
        (by rw [hstep]; exact hd) (by rw [hstep]; exact hc)
    · exact tick_left_anim _ (by rw [hstep]) (by rw [hstep]; exact hh)
        (by rw [hstep]; exact hd) (by rw [hstep]; exact hc)
  | false =>
    have hstep : step s .animComplete =
        { s with isAttacking := false, anim := "jiwatron-idle" } := by
      show handleAnimationComplete s.anim s = _
      unfold handleAnimationComplete
      rw [if_pos hsw]
      dsimp only
      rw [if_pos (show (!s.isMoving) = true by rw [hm]; rfl)]
      unfold playIdle
      rw [if_neg (by simp [hh, hd]), if_pos (⟨hvx, hvy⟩ : _ ∧ _)]
    refine ⟨by rw [hstep], by rw [hstep]; simp [hm], ?_, ?_⟩
    · exact tick_none_anim _ (by rw [hstep]) (by rw [hstep]; exact hh)
        (by rw [hstep]; exact hd) (by rw [hstep]; exact hc)
    · exact tick_left_anim _ (by rw [hstep]) (by rw [hstep]; exact hh)
        (by rw [hstep]; exact hd) (by rw [hstep]; exact hc)

/-- Witness for C4 (amended): the attack-from-spawn state, whose `isMoving`
flag is still false, so the completion returns to idle. -/
theorem c4_attack_completion_witness :
    (step attackFromSpawn .animComplete).isAttacking = false ∧
    (step attackFromSpawn .animComplete).anim =
      (if attackFromSpawn.isMoving then attackFromSpawn.anim else "jiwatron-idle") ∧
    (step (step attackFromSpawn .animComplete) (.tick kNone)).anim = "jiwatron-idle" ∧
    (step (step attackFromSpawn .animComplete) (.tick kA)).anim = "jiwatron-walk" :=
  c4_attack_completion attackFromSpawn (Or.inl (by with_unfolding_all decide))
    (by with_unfolding_all decide) (by with_unfolding_all decide)
    (by with_unfolding_all decide) (by with_unfolding_all decide)
    (by with_unfolding_all decide)

end Markicob
